import Mathlib

/-!
Verification development for a blob storage gateway (`apps/uploader`).

The definitions below are a shallow embedding of `src/apps/uploader/services.py`,
`src/apps/uploader/models.py` and `src/apps/uploader/views.py`:

* bytes are `List Nat` (each element a byte value `< 256`),
* Python strings are Lean `String`s,
* the filesystem, the `blobs_data` table and the remote object store are
  modelled as key-value maps `String → Option (List Nat)`,
* fallible operations return `Except`; an exception raised after a write
  carries the state as it was at raise time (Python performs no rollback).

`base64.b64decode` is modelled after CPython's lenient `binascii.a2b_base64`
(`strict_mode=False`): characters outside the base64 alphabet are discarded,
`'='` terminates decoding once a quad has at least two data characters, and
leftover data characters at the end raise `binascii.Error`.
-/

/-- Decode table of the standard base64 alphabet (`table_a2b_base64`):
`A`-`Z` ↦ 0-25, `a`-`z` ↦ 26-51, `0`-`9` ↦ 52-61, `+` ↦ 62, `/` ↦ 63. -/
def b64Table (c : Char) : Option Nat :=
  if 65 ≤ c.toNat ∧ c.toNat ≤ 90 then some (c.toNat - 65)
  else if 97 ≤ c.toNat ∧ c.toNat ≤ 122 then some (c.toNat - 97 + 26)
  else if 48 ≤ c.toNat ∧ c.toNat ≤ 57 then some (c.toNat - 48 + 52)
  else if c = '+' then some 62
  else if c = '/' then some 63
  else none

/-- Encode table of the standard base64 alphabet (index 0-63 to character). -/
def encChar (n : Nat) : Char :=
  if n < 26 then Char.ofNat (65 + n)
  else if n < 52 then Char.ofNat (97 + (n - 26))
  else if n < 62 then Char.ofNat (48 + (n - 52))
  else if n = 62 then '+'
  else '/'

/-- Errors raised by the base64 decoder: `nonAscii` models the `ValueError`
raised by `str.encode('ascii')`, the other two the `binascii.Error`s for a
data-character count `≡ 1 (mod 4)` resp. an unterminated final quad. -/
inductive B64Err where
  | nonAscii : B64Err
  | invalidLength : B64Err
  | incorrectPadding : B64Err
deriving DecidableEq, Repr

/-- The decoding loop of CPython's `binascii.a2b_base64` with
`strict_mode=False`.  Arguments: remaining input, `quad_pos`, `leftchar`,
`pads`, accumulated output bytes.  A `'='` is ignored while the current quad
has fewer than two data characters; otherwise it counts as padding and
decoding stops successfully once `quad_pos + pads ≥ 4`.  Characters outside
the alphabet are discarded.  At end of input, `quad_pos = 1` is the
"1 more than a multiple of 4" error and `quad_pos ∈ \x7b2, 3\x7d` is
"Incorrect padding". -/
def a2bLoop : List Char → Nat → Nat → Nat → List Nat → Except B64Err (List Nat)
  | [], 0, _, _, acc => .ok acc
  | [], 1, _, _, _ => .error .invalidLength
  | [], _, _, _, _ => .error .incorrectPadding
  | c :: rest, qp, lc, pads, acc =>
    if c = '=' then
      if 2 ≤ qp then
        if 4 ≤ qp + (pads + 1) then .ok acc
        else a2bLoop rest qp lc (pads + 1) acc
      else a2bLoop rest qp lc pads acc
    else
      match b64Table c with
      | none => a2bLoop rest qp lc pads acc
      | some v =>
        match qp with
        | 0 => a2bLoop rest 1 v 0 acc
        | 1 => a2bLoop rest 2 (v % 16) 0 (acc ++ [lc * 4 + v / 16])
        | 2 => a2bLoop rest 3 (v % 4) 0 (acc ++ [lc * 16 + v / 4])
        | _ => a2bLoop rest 0 0 0 (acc ++ [lc * 64 + v])

/-- Python `base64.b64decode` applied to a `str`: the string must be ASCII
(`_bytes_from_decode_data`), then the lenient `a2b_base64` loop runs. -/
def b64decode (s : List Char) : Except B64Err (List Nat) :=
  if s.all (fun c => c.toNat < 128) then a2bLoop s 0 0 0 [] else .error .nonAscii

/-- Python `base64.b64encode` (standard alphabet, `'='` padding), producing the
characters of the ASCII result string. -/
def b64encode : List Nat → List Char
  | [] => []
  | [a] => [encChar (a / 4), encChar (a % 4 * 16), '=', '=']
  | [a, b] => [encChar (a / 4), encChar (a % 4 * 16 + b / 16), encChar (b % 16 * 4), '=']
  | a :: b :: c :: rest =>
    encChar (a / 4) :: encChar (a % 4 * 16 + b / 16) ::
      encChar (b % 16 * 4 + c / 64) :: encChar (c % 64) :: b64encode rest

/-- A character kept by the lenient decoder: a base64 alphabet character or
the pad character.  Everything else is discarded by `a2bLoop`. -/
def keptChar (c : Char) : Bool := (b64Table c).isSome || c = '='

/-- The `Except.isOk` test as a plain definition. -/
def exceptIsOk : Except ε α → Bool
  | .ok _ => true
  | .error _ => false

/-- Concatenation of the images of a list (used for hex digests, UTF-8
encoding and digest serialisation). -/
def flatCat (f : α → List β) : List α → List β
  | [] => []
  | x :: xs => f x ++ flatCat f xs

/-- UTF-8 encoding of a single code point (Python `str.encode('utf-8')`). -/
def utf8Bytes (n : Nat) : List Nat :=
  if n < 128 then [n]
  else if n < 2048 then [192 + n / 64, 128 + n % 64]
  else if n < 65536 then [224 + n / 4096, 128 + n / 64 % 64, 128 + n % 64]
  else [240 + n / 262144, 128 + n / 4096 % 64, 128 + n / 64 % 64, 128 + n % 64]

/-- Python `str.encode('utf-8')` of a string. -/
def strBytes (s : String) : List Nat := flatCat (fun c => utf8Bytes c.toNat) s.toList

/-! ### SHA-256 and HMAC-SHA256 (`hashlib.sha256`, `hmac.new(:, :, sha256)`)

A byte-level implementation of FIPS 180-4 SHA-256, used by the Object Store
Backend's SigV4 signing.  32-bit words are `Nat`s kept below `2^32` by
explicit `% 4294967296`. -/

/-- The `n` low bytes of `v`, big-endian. -/
def beBytes : Nat → Nat → List Nat
  | 0, _ => []
  | n + 1, v => beBytes n (v / 256) ++ [v % 256]

/-- Group a byte string into 4-byte big-endian 32-bit words. -/
def words4 : List Nat → List Nat
  | a :: b :: c :: d :: rest => (((a * 256 + b) * 256 + c) * 256 + d) :: words4 rest
  | _ => []

/-- Split a byte string into 64-byte blocks. -/
def chunk64 : List Nat → List (List Nat)
  | [] => []
  | x :: xs => (x :: xs.take 63) :: chunk64 (xs.drop 63)
termination_by l => l.length
decreasing_by
  simp only [List.length_drop, List.length_cons]
  omega

/-- Right rotation of a 32-bit word by `n` bits. -/
def rotr32 (n x : Nat) : Nat := (x / 2 ^ n + x % 2 ^ n * 2 ^ (32 - n)) % 4294967296

/-- SHA-256 `Ch` function. -/
def shaCh (x y z : Nat) : Nat := (x &&& y) ^^^ ((x ^^^ 4294967295) &&& z)

/-- SHA-256 `Maj` function. -/
def shaMaj (x y z : Nat) : Nat := (x &&& y) ^^^ (x &&& z) ^^^ (y &&& z)

/-- SHA-256 big sigma-0. -/
def bsig0 (x : Nat) : Nat := rotr32 2 x ^^^ rotr32 13 x ^^^ rotr32 22 x

/-- SHA-256 big sigma-1. -/
def bsig1 (x : Nat) : Nat := rotr32 6 x ^^^ rotr32 11 x ^^^ rotr32 25 x

/-- SHA-256 small sigma-0. -/
def ssig0 (x : Nat) : Nat := rotr32 7 x ^^^ rotr32 18 x ^^^ x / 2 ^ 3

/-- SHA-256 small sigma-1. -/
def ssig1 (x : Nat) : Nat := rotr32 17 x ^^^ rotr32 19 x ^^^ x / 2 ^ 10

/-- The 64 SHA-256 round constants. -/
def shaK : List Nat :=
  [1116352408, 1899447441, 3049323471, 3921009573, 961987163, 1508970993,
   2453635748, 2870763221, 3624381080, 310598401, 607225278, 1426881987,
   1925078388, 2162078206, 2614888103, 3248222580, 3835390401, 4022224774,
   264347078, 604807628, 770255983, 1249150122, 1555081692, 1996064986,
   2554220882, 2821834349, 2952996808, 3210313671, 3336571891, 3584528711,
   113926993, 338241895, 666307205, 773529912, 1294757372, 1396182291,
   1695183700, 1986661051, 2177026350, 2456956037, 2730485921, 2820302411,
   3259730800, 3345764771, 3516065817, 3600352804, 4094571909, 275423344,
   430227734, 506948616, 659060556, 883997877, 958139571, 1322822218,
   1537002063, 1747873779, 1955562222, 2024104815, 2227730452, 2361852424,
   2428436474, 2756734187, 3204031479, 3329325298]

/-- The initial SHA-256 hash value. -/
def shaH0 : List Nat :=
  [1779033703, 3144134277, 1013904242, 2773480762,
   1359893119, 2600822924, 528734635, 1541459225]

/-- One step of the message-schedule extension: append `W[n]` computed from
the last 16 entries. -/
def shaExtendStep (w : List Nat) : List Nat :=
  let n := w.length
  w ++ [(ssig1 (w.getD (n - 2) 0) + w.getD (n - 7) 0 + ssig0 (w.getD (n - 15) 0)
        + w.getD (n - 16) 0) % 4294967296]

/-- One SHA-256 compression round on the 8-word state. -/
def shaRound (st : List Nat) (kw : Nat × Nat) : List Nat :=
  match st with
  | [a, b, c, d, e, f, g, hh] =>
    let t1 := (hh + bsig1 e + shaCh e f g + kw.1 + kw.2) % 4294967296
    let t2 := (bsig0 a + shaMaj a b c) % 4294967296
    [(t1 + t2) % 4294967296, a, b, c, (d + t1) % 4294967296, e, f, g]
  | other => other

/-- Compress one 64-byte block into the running hash. -/
def shaBlock (hs : List Nat) (block : List Nat) : List Nat :=
  let w := shaExtendStep^[48] (words4 block)
  let fin := (shaK.zip w).foldl shaRound hs
  (hs.zip fin).map (fun p => (p.1 + p.2) % 4294967296)

/-- SHA-256 padding: `0x80`, zeros to 56 mod 64, then the 64-bit big-endian
bit length. -/
def shaPad (msg : List Nat) : List Nat :=
  msg ++ 128 :: List.replicate ((119 - msg.length % 64) % 64) 0 ++ beBytes 8 (8 * msg.length)

/-- SHA-256 digest (32 bytes) of a byte string. -/
def sha256 (msg : List Nat) : List Nat :=
  flatCat (beBytes 4) ((chunk64 (shaPad msg)).foldl shaBlock shaH0)

/-- Lowercase hex character of a nibble. -/
def hexChar (n : Nat) : Char := if n < 10 then Char.ofNat (48 + n) else Char.ofNat (87 + n)

/-- Python `.hexdigest()`: lowercase hex string of a byte string. -/
def hexdigest (bs : List Nat) : String := String.mk (flatCat (fun b => [hexChar (b / 16), hexChar (b % 16)]) bs)

/-- HMAC-SHA256 (`hmac.new(key, msg, hashlib.sha256).digest()`). -/
def hmacSha256 (key msg : List Nat) : List Nat :=
  let k0 := if 64 < key.length then sha256 key else key
  let k := k0 ++ List.replicate (64 - k0.length) 0
  sha256 (k.map (fun b => b ^^^ 0x5c) ++ sha256 (k.map (fun b => b ^^^ 0x36) ++ msg))

/-! ### A small regex engine for `S3HTTPStorage._extract_region`

The five patterns in `_extract_region` all have the shape
"literal, optional single-character class, one capturing greedy `[a-z0-9-]+`,
literal"; the engine below implements `re.search` (leftmost match, greedy
`+` with backtracking) for exactly that pattern language and returns the
content of the capture group. -/

/-- One item of a pattern: a literal character, a single-character class, or
a greedy capturing `+` over a class. -/
inductive RItem where
  | lit : Char → RItem
  | cls : (Char → Bool) → RItem
  | plus : (Char → Bool) → RItem

/-- Greedy continuation of a one-or-more run over class `f`: try to extend
the run first and fall back to the continuation `cont` (which matches the
rest of the pattern) — regex backtracking, longest run first. -/
def plusExtH (f : Char → Bool) (cont : List Char → Option (List Char)) :
    List Char → Option (List Char)
  | [] => cont []
  | x :: xs =>
    if f x then
      match plusExtH f cont xs with
      | some cap => some (x :: cap)
      | none => cont (x :: xs)
    else cont (x :: xs)

/-- Match a pattern against a prefix of the input, returning the characters
captured by the (single) `plus` item on success. -/
def matchSeq : List RItem → List Char → Option (List Char)
  | [], _ => some []
  | RItem.lit c :: ps, x :: xs => if x = c then matchSeq ps xs else none
  | RItem.lit _ :: _, [] => none
  | RItem.cls f :: ps, x :: xs => if f x then matchSeq ps xs else none
  | RItem.cls _ :: _, [] => none
  | RItem.plus f :: ps, x :: xs => if f x then (plusExtH f (matchSeq ps) xs).map (x :: ·) else none
  | RItem.plus _ :: _, [] => none

/-- Python `re.search`: try the pattern at each start position, leftmost first. -/
def reSearch (ps : List RItem) : List Char → Option (List Char)
  | [] => matchSeq ps []
  | x :: xs =>
    match matchSeq ps (x :: xs) with
    | some cap => some cap
    | none => reSearch ps xs

/-- The `[a-z0-9-]` class of the region capture groups. -/
def regionChar (c : Char) : Bool :=
  (97 ≤ c.toNat && c.toNat ≤ 122) || (48 ≤ c.toNat && c.toNat ≤ 57) || c = '-'

/-- A string as a list of literal pattern items. -/
def litStr (s : String) : List RItem := s.toList.map RItem.lit

/-- The five hostname patterns of `_extract_region`, in source order. -/
def regionPatterns : List (List RItem) :=
  [litStr "s3" ++ [RItem.cls (fun c => c = '.' || c = '-'), RItem.plus regionChar] ++ litStr ".amazonaws.com",
   [RItem.plus regionChar] ++ litStr ".digitaloceanspaces.com",
   [RItem.plus regionChar] ++ litStr ".linodeobjects.com",
   litStr "s3." ++ [RItem.plus regionChar] ++ litStr ".backblazeb2.com",
   litStr "s3." ++ [RItem.plus regionChar] ++ litStr ".wasabisys.com"]

/-- Source `S3HTTPStorage._extract_region`: first pattern that matches wins and its
capture group is the region; otherwise the default `"us-east-1"`. -/
def extractRegion (endpoint : String) : String :=
  match regionPatterns.findSome? (fun p => reSearch p endpoint.toList) with
  | some cap => String.mk cap
  | none => "us-east-1"

/-! ### `S3HTTPStorage`: construction, addressing and SigV4 signing -/

/-- Python `str.rstrip('/')`. -/
def rstripSlash (s : String) : String :=
  String.mk (s.toList.reverse.dropWhile (· = '/')).reverse

/-- Python `urlparse(url).netloc`: the part after `"://"` up to the next `/`
(empty when the string has no `"://"`). -/
def urlSchemeRest : List Char → Option (List Char)
  | ':' :: '/' :: '/' :: rest => some rest
  | _ :: rest => urlSchemeRest rest
  | [] => none

/-- See `urlSchemeRest`. -/
def urlNetloc (url : String) : String :=
  match urlSchemeRest url.toList with
  | some r => String.mk (r.takeWhile (· ≠ '/'))
  | none => ""

/-- Python `str.replace('//', rep)`: replace every occurrence of `"//"`,
left to right, non-overlapping. -/
def replaceDslash : List Char → List Char → List Char
  | '/' :: '/' :: rest, rep => rep ++ replaceDslash rest rep
  | x :: rest, rep => x :: replaceDslash rest rep
  | [], _ => []

/-- The state of an `S3HTTPStorage` instance after `__init__`. -/
structure S3Config where
  endpoint : String
  bucket : String
  accessKey : String
  secretKey : String
  region : String
  virtualHost : Bool
  host : String

/-- Source `S3HTTPStorage.__init__`: strips trailing slashes from the endpoint,
derives `host` from it, and uses the given region unless it is falsy
(absent or empty), in which case `_extract_region` runs on the stripped
endpoint. -/
def mkS3 (endpoint bucket accessKey secretKey : String) (region : Option String)
    (virtualHost : Bool) : S3Config :=
  let ep := rstripSlash endpoint
  { endpoint := ep, bucket := bucket, accessKey := accessKey, secretKey := secretKey,
    region := match region with
      | some r => if r = "" then extractRegion ep else r
      | none => extractRegion ep,
    virtualHost := virtualHost, host := urlNetloc ep }

/-- Source `S3HTTPStorage._make_url_and_path`: request URL and canonical signing
path, for path-style or virtual-host-style addressing. -/
def makeUrlAndPath (cfg : S3Config) (blobId : String) : String × String :=
  if cfg.virtualHost then
    (String.mk (replaceDslash cfg.endpoint.toList ("//" ++ cfg.bucket ++ ".").toList) ++ "/" ++ blobId,
     "/" ++ blobId)
  else
    (cfg.endpoint ++ "/" ++ cfg.bucket ++ "/" ++ blobId, "/" ++ cfg.bucket ++ "/" ++ blobId)

/-- Source `S3HTTPStorage._sign`: HMAC-SHA256 of a UTF-8 encoded message. -/
def s3Sign (key : List Nat) (msg : String) : List Nat := hmacSha256 key (strBytes msg)

/-- Source `S3HTTPStorage._get_signature_key`: the chained SigV4 signing key. -/
def getSignatureKey (secretKey region dateStamp : String) : List Nat :=
  s3Sign (s3Sign (s3Sign (s3Sign (strBytes ("AWS4" ++ secretKey)) dateStamp) region) "s3") "aws4_request"

/-- The fixed signed-headers list of `_auth_headers`. -/
def signedHeadersList : String := "host;x-amz-content-sha256;x-amz-date"

/-- The canonical request built inside `_auth_headers` (method, canonical
path, empty query string, canonical headers, signed headers, payload hash). -/
def canonicalRequestOf (cfg : S3Config) (method path : String) (payload : List Nat)
    (amzDate : String) : String :=
  let payloadHash := hexdigest (sha256 payload)
  let canonicalHeaders :=
    "host:" ++ cfg.host ++ "\n" ++ "x-amz-content-sha256:" ++ payloadHash ++ "\n"
      ++ "x-amz-date:" ++ amzDate ++ "\n"
  method ++ "\n" ++ path ++ "\n" ++ "\n" ++ canonicalHeaders ++ "\n"
    ++ signedHeadersList ++ "\n" ++ payloadHash

/-- Source `S3HTTPStorage._auth_headers`.  The current UTC time is passed in as the
two formatted stamps the source derives from `datetime.now`.  With missing
credentials no headers are emitted (signing disabled). -/
def authHeaders (cfg : S3Config) (method path : String) (payload : List Nat)
    (amzDate dateStamp : String) : List (String × String) :=
  if cfg.accessKey = "" || cfg.secretKey = "" then [] else
  let payloadHash := hexdigest (sha256 payload)
  let canonicalRequest := canonicalRequestOf cfg method path payload amzDate
  let stringToSign :=
    "AWS4-HMAC-SHA256\n" ++ amzDate ++ "\n" ++ dateStamp ++ "/" ++ cfg.region
      ++ "/s3/aws4_request\n" ++ hexdigest (sha256 (strBytes canonicalRequest))
  let signature := hexdigest (hmacSha256 (getSignatureKey cfg.secretKey cfg.region dateStamp) (strBytes stringToSign))
  let auth :=
    "AWS4-HMAC-SHA256 Credential=" ++ cfg.accessKey ++ "/" ++ dateStamp ++ "/" ++ cfg.region
      ++ "/s3/aws4_request, SignedHeaders=" ++ signedHeadersList ++ ", Signature=" ++ signature
  [("Authorization", auth), ("x-amz-date", amzDate), ("x-amz-content-sha256", payloadHash)]

/-! ### Storage backends and the blob service

`LocalStorage` and the remote object store are modelled as key-value maps;
the `blobs_data` and `blobs_meta` tables as maps keyed by the row id.  A
`Backend` packages the `put`/`get` duck-typed protocol (`StorageInterface`). -/

/-- A key-value store (filesystem, database table, or remote object store). -/
def KVMap := String → Option (List Nat)

/-- The `put`/`get` capability contract (`StorageInterface`). -/
structure Backend (σ : Type) where
  put : σ → String → List Nat → Except String σ
  get : σ → String → Except String (Option (List Nat))

/-- Python `os.path.join(base, p)` for two path components: an absolute `p`
replaces `base`; otherwise the parts are joined with `/` unless `base`
already ends with one or is empty. -/
def osPathJoin (base p : String) : String :=
  if p.startsWith "/" then p
  else if base = "" || base.endsWith "/" then base ++ p
  else base ++ "/" ++ p

/-- Source `LocalStorage.put`: write the bytes at `base_path/blob_id` (parent
directory creation has no observable effect on the file map). -/
def localPut (basePath : String) (fs : KVMap) (blobId : String) (data : List Nat) : KVMap :=
  fun p => if p = osPathJoin basePath blobId then some data else fs p

/-- Source `LocalStorage.get`: the file's contents, or `None` when absent. -/
def localGet (basePath : String) (fs : KVMap) (blobId : String) : Option (List Nat) :=
  fs (osPathJoin basePath blobId)

/-- The Local Filesystem Backend. -/
def localBackend (basePath : String) : Backend KVMap :=
  { put := fun fs i d => .ok (localPut basePath fs i d),
    get := fun fs i => .ok (localGet basePath fs i) }

/-- Source `DBStorage.put`: transactional upsert into `blobs_data` — update the
row if it exists, insert it otherwise (either way the table maps `blob_id`
to `data` afterwards). -/
def dbPut (tbl : KVMap) (blobId : String) (data : List Nat) : KVMap :=
  fun k => if k = blobId then some data else tbl k

/-- Source `DBStorage.get`: `filter(id=blob_id).first()`, `None` when no row. -/
def dbGet (tbl : KVMap) (blobId : String) : Option (List Nat) := tbl blobId

/-- The Relational Blob Backend. -/
def dbBackend : Backend KVMap :=
  { put := fun tbl i d => .ok (dbPut tbl i d),
    get := fun tbl i => .ok (dbGet tbl i) }

/-- The external S3-compatible server answering a PUT: it stores the body
under the request URL and answers 200 (request headers do not change the
stored bytes).  Result: new store, status code, response text. -/
def s3ServerPut (store : KVMap) (url : String) (body : List Nat)
    (_headers : List (String × String)) : KVMap × Nat × String :=
  (fun k => if k = url then some body else store k, 200, "OK")

/-- The external S3-compatible server answering a GET: 200 with the stored
bytes, or 404.  Result: status code, body, response text. -/
def s3ServerGet (store : KVMap) (url : String)
    (_headers : List (String × String)) : Nat × List Nat × String :=
  match store url with
  | some b => (200, b, "OK")
  | none => (404, [], "Not Found")

/-- The response handling of `S3HTTPStorage.put` (lines 188-191): 200 and
201 succeed, anything else raises `RuntimeError` carrying status and body. -/
def s3PutRespond (status : Nat) (text : String) : Except String Unit :=
  if status = 200 || status = 201 then .ok ()
  else .error ("S3 PUT failed: " ++ toString status ++ " " ++ text)

/-- The response handling of `S3HTTPStorage.get` (lines 199-203): 200
returns the body, 404 returns `None` (not an error), anything else raises
`RuntimeError` carrying status and body. -/
def s3GetRespond (status : Nat) (content : List Nat) (text : String) :
    Except String (Option (List Nat)) :=
  if status = 200 then .ok (some content)
  else if status = 404 then .ok none
  else .error ("S3 GET failed: " ++ toString status ++ " " ++ text)

/-- Source `S3HTTPStorage.put`: build URL and canonical path, sign, send the PUT
to the object store, check the status. -/
def s3Put (cfg : S3Config) (amzDate dateStamp : String) (store : KVMap)
    (blobId : String) (data : List Nat) : Except String KVMap :=
  let up := makeUrlAndPath cfg blobId
  let headers := authHeaders cfg "PUT" up.2 data amzDate dateStamp
                   ++ [("Content-Type", "application/octet-stream")]
  let res := s3ServerPut store up.1 data headers
  match s3PutRespond res.2.1 res.2.2 with
  | .ok _ => .ok res.1
  | .error e => .error e

/-- Source `S3HTTPStorage.get`: build URL and canonical path, sign an empty-body
GET, send it, handle the status. -/
def s3Get (cfg : S3Config) (amzDate dateStamp : String) (store : KVMap)
    (blobId : String) : Except String (Option (List Nat)) :=
  let up := makeUrlAndPath cfg blobId
  let headers := authHeaders cfg "GET" up.2 [] amzDate dateStamp
  let res := s3ServerGet store up.1 headers
  s3GetRespond res.1 res.2.1 res.2.2

/-- The Object Store Backend (time stamps fixed per request). -/
def s3Backend (cfg : S3Config) (amzDate dateStamp : String) : Backend KVMap :=
  { put := s3Put cfg amzDate dateStamp, get := s3Get cfg amzDate dateStamp }

/-- A `blobs_meta` row (`BlobMeta`): `size`, `backend`, and the
`auto_now_add` creation timestamp (an abstract instant; `get_blob` returns
its `isoformat()` rendering, kept abstract here). -/
structure MetaRow where
  size : Nat
  backend : String
  createdAt : Nat
deriving DecidableEq, Repr

/-- The `blobs_meta` table. -/
def MetaMap := String → Option MetaRow

/-- Source `BlobMeta.create`: an external relational INSERT with `id` as primary
key — it fails with an integrity error when a row with that id already
exists, and never updates an existing row. -/
def blobMetaCreate (meta : MetaMap) (blobId : String) (size : Nat)
    (backendName : String) (now : Nat) : Except String MetaMap :=
  match meta blobId with
  | some _ => .error "UNIQUE constraint failed: blobs_meta.id"
  | none => .ok (fun k => if k = blobId then some ⟨size, backendName, now⟩ else meta k)

/-- The mutable state seen by the blob service: the selected backend's
store and the metadata table. -/
structure SvcState (σ : Type) where
  store : σ
  meta : MetaMap

/-- The exceptions `save_blob`/`get_blob` can raise: the `ValueError` for
malformed base64, the metadata integrity error, and backend
(`RuntimeError`/IO) failures. -/
inductive SvcError where
  | invalidInput : String → SvcError
  | integrity : String → SvcError
  | backendFail : String → SvcError
deriving DecidableEq, Repr

/-- Source `save_blob`: decode the base64 payload (`ValueError('Invalid base64
data')` on failure), write the bytes through the configured backend, then
create the metadata row `(id, size, backend)`.  An error carries the state
as of the raise (earlier writes are not rolled back). -/
def saveBlob (B : Backend σ) (backendName : String) (now : Nat) (st : SvcState σ)
    (blobId dataB64 : String) : Except (SvcError × SvcState σ) (SvcState σ) :=
  match b64decode dataB64.toList with
  | .error _ => .error (.invalidInput "Invalid base64 data", st)
  | .ok data =>
    match B.put st.store blobId data with
    | .error e => .error (.backendFail e, st)
    | .ok store' =>
      match blobMetaCreate st.meta blobId data.length backendName now with
      | .error e => .error (.integrity e, { store := store', meta := st.meta })
      | .ok meta' => .ok { store := store', meta := meta' }

/-- The dict returned by `get_blob`: id, re-encoded base64 data, the
metadata row's size and creation timestamp. -/
structure BlobDict where
  id : String
  data : String
  size : Nat
  createdAt : Nat
deriving DecidableEq, Repr

/-- Source `get_blob`: `None` without a metadata row, otherwise read the bytes
from the configured backend (`None` when they are absent) and re-encode. -/
def getBlob (B : Backend σ) (st : SvcState σ) (blobId : String) :
    Except String (Option BlobDict) :=
  match st.meta blobId with
  | none => .ok none
  | some m =>
    match B.get st.store blobId with
    | .error e => .error e
    | .ok none => .ok none
    | .ok (some data) =>
      .ok (some { id := blobId, data := String.mk (b64encode data),
                  size := m.size, createdAt := m.createdAt })

/-- An HTTP-level outcome of the two views: a success body, an
`HTTPException`, or an unhandled exception (framework 500). -/
inductive ViewOut where
  | okMsg : String → String → ViewOut
  | okBlob : BlobDict → ViewOut
  | httpError : Nat → String → ViewOut
  | serverError : SvcError → ViewOut
deriving DecidableEq, Repr

/-- Source `views.create_blob` (after auth): call `save_blob`; a `ValueError`
becomes `HTTPException(400, detail)`; other exceptions propagate; success
returns `id` and a message. -/
def createBlobView (B : Backend σ) (backendName : String) (now : Nat) (st : SvcState σ)
    (blobId dataB64 : String) : SvcState σ × ViewOut :=
  match saveBlob B backendName now st blobId dataB64 with
  | .ok st' => (st', .okMsg blobId "Blob stored successfully")
  | .error (.invalidInput m, st') => (st', .httpError 400 m)
  | .error (e, st') => (st', .serverError e)

/-- Source `views.retrieve_blob` (after auth): call `get_blob`; an absent blob
becomes `HTTPException(404, 'Blob not found')`; exceptions propagate. -/
def retrieveBlobView (B : Backend σ) (st : SvcState σ) (blobId : String) : ViewOut :=
  match getBlob B st blobId with
  | .ok none => .httpError 404 "Blob not found"
  | .ok (some r) => .okBlob r
  | .error e => .serverError (.backendFail e)

/-! ### Spec-side SigV4 definitions

These follow the wording of the specification (§4.3, steps 5-7) and exist
to be compared against the code-derived `authHeaders`. -/

/-- Spec step 5: the string-to-sign
`AWS4-HMAC-SHA256\n{amzDate}\n{dateStamp}/{region}/s3/aws4_request\n{sha256hex(canonicalRequest)}`. -/
def specStringToSign (amzDate dateStamp region canonicalRequest : String) : String :=
  "AWS4-HMAC-SHA256\n" ++ amzDate ++ "\n" ++ dateStamp ++ "/" ++ region
    ++ "/s3/aws4_request\n" ++ hexdigest (sha256 (strBytes canonicalRequest))

/-- Spec step 6: the chained signing key
`HMAC(HMAC(HMAC(HMAC("AWS4"+secret, dateStamp), region), "s3"), "aws4_request")`. -/
def specSigningKey (secret dateStamp region : String) : List Nat :=
  hmacSha256 (hmacSha256 (hmacSha256 (hmacSha256 (strBytes ("AWS4" ++ secret))
    (strBytes dateStamp)) (strBytes region)) (strBytes "s3")) (strBytes "aws4_request")

/-- Spec step 7: `Signature = hex(HMAC(signingKey, stringToSign))`. -/
def specSignature (secret region amzDate dateStamp canonicalRequest : String) : String :=
  hexdigest (hmacSha256 (specSigningKey secret dateStamp region)
    (strBytes (specStringToSign amzDate dateStamp region canonicalRequest)))

/-- The round-trip property of claim C1 for one backend: storing the
encoding of `b` succeeds and the subsequent retrieve returns a record whose
`data` field decodes back to `b`. -/
def roundtripOK (B : Backend σ) (backendName : String) (st : SvcState σ)
    (blobId : String) (b : List Nat) (now : Nat) : Prop :=
  ∃ st' r, saveBlob B backendName now st blobId (String.mk (b64encode b)) = .ok st' ∧
    getBlob B st' blobId = .ok (some r) ∧ b64decode r.data.toList = .ok b

/-! ## Theorems

First the base64 lemmas (decode inverts encode; the lenient decoder
discards non-alphabet characters), then one theorem per claim. -/

/-- Decoding table inverts the encoding table on 0-63. -/
theorem b64Table_encChar : ∀ n, n < 64 → b64Table (encChar n) = some n := by decide

/-- Encoded characters are never the pad character. -/
theorem encChar_ne_pad : ∀ n, n < 64 → encChar n ≠ '=' := by decide

/-- Encoded characters are ASCII. -/
theorem encChar_ascii : ∀ n, n < 64 → (encChar n).toNat < 128 := by decide

theorem a2b_step0 {c : Char} {v : Nat} (hv : b64Table c = some v) (hne : c ≠ '=')
    (rest : List Char) (lc pads : Nat) (acc : List Nat) :
    a2bLoop (c :: rest) 0 lc pads acc = a2bLoop rest 1 v 0 acc := by
  simp [a2bLoop, hne, hv]

theorem a2b_step1 {c : Char} {v : Nat} (hv : b64Table c = some v) (hne : c ≠ '=')
    (rest : List Char) (lc pads : Nat) (acc : List Nat) :
    a2bLoop (c :: rest) 1 lc pads acc = a2bLoop rest 2 (v % 16) 0 (acc ++ [lc * 4 + v / 16]) := by
  simp [a2bLoop, hne, hv]

theorem a2b_step2 {c : Char} {v : Nat} (hv : b64Table c = some v) (hne : c ≠ '=')
    (rest : List Char) (lc pads : Nat) (acc : List Nat) :
    a2bLoop (c :: rest) 2 lc pads acc = a2bLoop rest 3 (v % 4) 0 (acc ++ [lc * 16 + v / 4]) := by
  simp [a2bLoop, hne, hv]

theorem a2b_step3 {c : Char} {v : Nat} (hv : b64Table c = some v) (hne : c ≠ '=')
    (rest : List Char) (lc pads : Nat) (acc : List Nat) :
    a2bLoop (c :: rest) 3 lc pads acc = a2bLoop rest 0 0 0 (acc ++ [lc * 64 + v]) := by
  simp [a2bLoop, hne, hv]

theorem a2b_pad (rest : List Char) (qp lc pads : Nat) (acc : List Nat) :
    a2bLoop ('=' :: rest) qp lc pads acc =
      if 2 ≤ qp then
        if 4 ≤ qp + (pads + 1) then .ok acc else a2bLoop rest qp lc (pads + 1) acc
      else a2bLoop rest qp lc pads acc := by
  simp [a2bLoop]

theorem a2b_skip {c : Char} (hv : b64Table c = none) (hne : c ≠ '=')
    (rest : List Char) (qp lc pads : Nat) (acc : List Nat) :
    a2bLoop (c :: rest) qp lc pads acc = a2bLoop rest qp lc pads acc := by
  simp [a2bLoop, hne, hv]


theorem a2b_step3' {c : Char} {v : Nat} (hv : b64Table c = some v) (hne : c ≠ '=')
    (rest : List Char) (n lc pads : Nat) (acc : List Nat) :
    a2bLoop (c :: rest) (n + 3) lc pads acc = a2bLoop rest 0 0 0 (acc ++ [lc * 64 + v]) := by
  simp [a2bLoop, hne, hv]

theorem a2b_pad2_first (rest : List Char) (lc : Nat) (acc : List Nat) :
    a2bLoop ('=' :: rest) 2 lc 0 acc = a2bLoop rest 2 lc 1 acc := by
  simp [a2bLoop]

theorem a2b_pad2_second (rest : List Char) (lc : Nat) (acc : List Nat) :
    a2bLoop ('=' :: rest) 2 lc 1 acc = .ok acc := by
  simp [a2bLoop]

theorem a2b_pad3 (rest : List Char) (lc : Nat) (acc : List Nat) :
    a2bLoop ('=' :: rest) 3 lc 0 acc = .ok acc := by
  simp [a2bLoop]

/-- The lenient decoder inverts the encoder, for any starting accumulator. -/
theorem a2b_encode (l : List Nat) (h : ∀ x ∈ l, x < 256) (acc : List Nat) :
    a2bLoop (b64encode l) 0 0 0 acc = .ok (acc ++ l) := by
  induction l using b64encode.induct generalizing acc with
  | case1 => simp [b64encode, a2bLoop]
  | case2 a =>
    have ha : a < 256 := h a (by simp)
    have e1 : 0 * 4 + a % 4 * 16 / 16 = a % 4 := by omega
    rw [b64encode,
      a2b_step0 (b64Table_encChar _ (by omega)) (encChar_ne_pad _ (by omega)),
      a2b_step1 (b64Table_encChar _ (by omega)) (encChar_ne_pad _ (by omega)),
      a2b_pad2_first, a2b_pad2_second]
    have e2 : a / 4 * 4 + a % 4 * 16 / 16 = a := by omega
    rw [e2]
  | case3 a b =>
    have ha : a < 256 := h a (by simp)
    have hb : b < 256 := h b (by simp)
    rw [b64encode,
      a2b_step0 (b64Table_encChar _ (by omega)) (encChar_ne_pad _ (by omega)),
      a2b_step1 (b64Table_encChar _ (by omega)) (encChar_ne_pad _ (by omega)),
      a2b_step2 (b64Table_encChar _ (by omega)) (encChar_ne_pad _ (by omega)),
      a2b_pad3]
    have e1 : a / 4 * 4 + (a % 4 * 16 + b / 16) / 16 = a := by omega
    have e2 : (a % 4 * 16 + b / 16) % 16 * 16 + b % 16 * 4 / 4 = b := by omega
    rw [e1, e2]
    simp
  | case4 a b c rest ih =>
    have ha : a < 256 := h a (by simp)
    have hb : b < 256 := h b (by simp)
    have hc : c < 256 := h c (by simp)
    rw [b64encode,
      a2b_step0 (b64Table_encChar _ (by omega)) (encChar_ne_pad _ (by omega)),
      a2b_step1 (b64Table_encChar _ (by omega)) (encChar_ne_pad _ (by omega)),
      a2b_step2 (b64Table_encChar _ (by omega)) (encChar_ne_pad _ (by omega)),
      a2b_step3 (b64Table_encChar _ (by omega)) (encChar_ne_pad _ (by omega))]
    have e1 : a / 4 * 4 + (a % 4 * 16 + b / 16) / 16 = a := by omega
    have e2 : (a % 4 * 16 + b / 16) % 16 * 16 + (b % 16 * 4 + c / 64) / 4 = b := by omega
    have e3 : (b % 16 * 4 + c / 64) % 4 * 64 + c % 64 = c := by omega
    rw [e1, e2, e3, ih (fun x hx => h x (by simp [hx]))]
    simp

/-- Every character produced by the encoder is ASCII. -/
theorem b64encode_ascii (l : List Nat) (h : ∀ x ∈ l, x < 256) :
    ∀ c ∈ b64encode l, c.toNat < 128 := by
  induction l using b64encode.induct with
  | case1 => simp [b64encode]
  | case2 a =>
    have ha : a < 256 := h a (by simp)
    simp only [b64encode, List.mem_cons, List.not_mem_nil, or_false]
    rintro c (rfl | rfl | rfl | rfl)
    · exact encChar_ascii _ (by omega)
    · exact encChar_ascii _ (by omega)
    · decide
    · decide
  | case3 a b =>
    have ha : a < 256 := h a (by simp)
    have hb : b < 256 := h b (by simp)
    simp only [b64encode, List.mem_cons, List.not_mem_nil, or_false]
    rintro c (rfl | rfl | rfl | rfl)
    · exact encChar_ascii _ (by omega)
    · exact encChar_ascii _ (by omega)
    · exact encChar_ascii _ (by omega)
    · decide
  | case4 a b c rest ih =>
    have ha : a < 256 := h a (by simp)
    have hb : b < 256 := h b (by simp)
    have hc : c < 256 := h c (by simp)
    simp only [b64encode, List.mem_cons]
    rintro x (rfl | rfl | rfl | rfl | hx)
    · exact encChar_ascii _ (by omega)
    · exact encChar_ascii _ (by omega)
    · exact encChar_ascii _ (by omega)
    · exact encChar_ascii _ (by omega)
    · exact ih (fun y hy => h y (by simp [hy])) x hx

/-- Python `base64.b64decode` inverts `base64.b64encode` on byte strings. -/
theorem b64decode_encode (l : List Nat) (h : ∀ x ∈ l, x < 256) :
    b64decode (b64encode l) = .ok l := by
  have hall : (b64encode l).all (fun c => c.toNat < 128) = true := by
    rw [List.all_eq_true]
    intro c hc
    simpa using b64encode_ascii l h c hc
  rw [b64decode, if_pos hall]
  simpa using a2b_encode l h []

/-- The lenient decoding loop is unchanged when the characters it discards
(everything outside the alphabet and `'='`) are removed from the input. -/
theorem a2b_filter (s : List Char) :
    ∀ qp lc pads acc, a2bLoop s qp lc pads acc = a2bLoop (s.filter keptChar) qp lc pads acc := by
  induction s with
  | nil => simp
  | cons c rest ih =>
    intro qp lc pads acc
    by_cases hpad : c = '='
    · subst hpad
      rw [List.filter_cons_of_pos (by simp [keptChar]), a2b_pad, a2b_pad]
      split_ifs with h1 h2
      · rfl
      · exact ih ..
      · exact ih ..
    · cases hv : b64Table c with
      | none =>
        rw [a2b_skip hv hpad, List.filter_cons_of_neg (by simp [keptChar, hv, hpad]), ih]
      | some v =>
        rw [List.filter_cons_of_pos (by simp [keptChar, hv])]
        match qp with
        | 0 => rw [a2b_step0 hv hpad, a2b_step0 hv hpad, ih]
        | 1 => rw [a2b_step1 hv hpad, a2b_step1 hv hpad, ih]
        | 2 => rw [a2b_step2 hv hpad, a2b_step2 hv hpad, ih]
        | n + 3 => rw [a2b_step3' hv hpad, a2b_step3' hv hpad, ih]

theorem stringMk_toList (l : List Char) : (String.mk l).toList = l := rfl

theorem roundtrip_local (basePath : String) (fs : KVMap) (meta : MetaMap) (blobId : String)
    (b : List Nat) (hbyte : ∀ x ∈ b, x < 256) (bn : String) (now : Nat)
    (hm : meta blobId = none) :
    roundtripOK (localBackend basePath) bn ⟨fs, meta⟩ blobId b now := by
  have hdec : b64decode (b64encode b) = .ok b := b64decode_encode b hbyte
  refine ⟨⟨localPut basePath fs blobId b,
           fun k => if k = blobId then some ⟨b.length, bn, now⟩ else meta k⟩,
    ⟨blobId, String.mk (b64encode b), b.length, now⟩, ?_, ?_, by rw [stringMk_toList]; exact hdec⟩
  · simp [saveBlob, hdec, localBackend, blobMetaCreate, hm]
  · simp [getBlob, localBackend, localGet, localPut]

theorem roundtrip_db (tbl : KVMap) (meta : MetaMap) (blobId : String)
    (b : List Nat) (hbyte : ∀ x ∈ b, x < 256) (bn : String) (now : Nat)
    (hm : meta blobId = none) :
    roundtripOK dbBackend bn ⟨tbl, meta⟩ blobId b now := by
  have hdec : b64decode (b64encode b) = .ok b := b64decode_encode b hbyte
  refine ⟨⟨dbPut tbl blobId b,
           fun k => if k = blobId then some ⟨b.length, bn, now⟩ else meta k⟩,
    ⟨blobId, String.mk (b64encode b), b.length, now⟩, ?_, ?_, by rw [stringMk_toList]; exact hdec⟩
  · simp [saveBlob, hdec, dbBackend, blobMetaCreate, hm]
  · simp [getBlob, dbBackend, dbGet, dbPut]

theorem roundtrip_s3 (cfg : S3Config) (amzDate dateStamp : String) (store : KVMap)
    (meta : MetaMap) (blobId : String)
    (b : List Nat) (hbyte : ∀ x ∈ b, x < 256) (bn : String) (now : Nat)
    (hm : meta blobId = none) :
    roundtripOK (s3Backend cfg amzDate dateStamp) bn ⟨store, meta⟩ blobId b now := by
  have hdec : b64decode (b64encode b) = .ok b := b64decode_encode b hbyte
  refine ⟨⟨fun k => if k = (makeUrlAndPath cfg blobId).1 then some b else store k,
           fun k => if k = blobId then some ⟨b.length, bn, now⟩ else meta k⟩,
    ⟨blobId, String.mk (b64encode b), b.length, now⟩, ?_, ?_, by rw [stringMk_toList]; exact hdec⟩
  · simp [saveBlob, hdec, s3Backend, s3Put, s3ServerPut, s3PutRespond, blobMetaCreate, hm]
  · simp [getBlob, s3Backend, s3Get, s3ServerGet, s3GetRespond]

/-- C1: for every non-empty byte sequence `b` and non-empty identifier, storing
the base64 encoding of `b` and then retrieving it yields a record whose `data`
field decodes back to exactly `b`, for each of the three backends (Local
Filesystem, Relational, Object Store), starting from any state with no
metadata row for the identifier. -/
theorem save_then_retrieve_roundtrip (b : List Nat) (hbyte : ∀ x ∈ b, x < 256)
    (_hb : b ≠ []) (blobId : String) (_hid : blobId ≠ "") (bn : String) (now : Nat) :
    (∀ (basePath : String) (fs : KVMap) (meta : MetaMap), meta blobId = none →
      roundtripOK (localBackend basePath) bn ⟨fs, meta⟩ blobId b now) ∧
    (∀ (tbl : KVMap) (meta : MetaMap), meta blobId = none →
      roundtripOK dbBackend bn ⟨tbl, meta⟩ blobId b now) ∧
    (∀ (cfg : S3Config) (amzDate dateStamp : String) (store : KVMap) (meta : MetaMap),
      meta blobId = none →
      roundtripOK (s3Backend cfg amzDate dateStamp) bn ⟨store, meta⟩ blobId b now) :=
  ⟨fun basePath fs meta hm => roundtrip_local basePath fs meta blobId b hbyte bn now hm,
   fun tbl meta hm => roundtrip_db tbl meta blobId b hbyte bn now hm,
   fun cfg amzDate dateStamp store meta hm =>
     roundtrip_s3 cfg amzDate dateStamp store meta blobId b hbyte bn now hm⟩

/-- Witness for C1: concrete round-trips for all three backends on byte
sequence `[104, 105]` and identifier `"obj1"`, from empty stores. -/
theorem save_then_retrieve_roundtrip_witness :
    roundtripOK (localBackend "/data") "local" ⟨fun _ => none, fun _ => none⟩ "obj1" [104, 105] 7 ∧
    roundtripOK dbBackend "db" ⟨fun _ => none, fun _ => none⟩ "obj1" [104, 105] 7 ∧
    roundtripOK (s3Backend (mkS3 "https://example.com" "b" "ak" "sk" none false) "20260101T000000Z" "20260101")
      "s3" ⟨fun _ => none, fun _ => none⟩ "obj1" [104, 105] 7 := by
  obtain ⟨h1, h2, h3⟩ := save_then_retrieve_roundtrip [104, 105] (by decide) (by decide)
    "obj1" (by decide) "local" 7
  obtain ⟨g1, g2, g3⟩ := save_then_retrieve_roundtrip [104, 105] (by decide) (by decide)
    "obj1" (by decide) "db" 7
  obtain ⟨f1, f2, f3⟩ := save_then_retrieve_roundtrip [104, 105] (by decide) (by decide)
    "obj1" (by decide) "s3" 7
  exact ⟨h1 "/data" (fun _ => none) (fun _ => none) rfl,
         g2 (fun _ => none) (fun _ => none) rfl,
         f3 (mkS3 "https://example.com" "b" "ak" "sk" none false) "20260101T000000Z" "20260101"
           (fun _ => none) (fun _ => none) rfl⟩

/-- Counterexample to C3 as stated: from an empty state, a first store of
`"aGVsbG8="` under `"id1"` succeeds, but the second store of the same id
does not succeed — `save_blob` unconditionally calls `BlobMeta.create`,
which hits the already-existing primary key. -/
theorem second_store_raises_counterexample :
    saveBlob dbBackend "db" 0 ⟨fun _ => none, fun _ => none⟩ "id1" "aGVsbG8=" =
      .ok ⟨fun k => if k = "id1" then some [104, 101, 108, 108, 111] else none,
           fun k => if k = "id1" then some ⟨5, "db", 0⟩ else none⟩ ∧
    exceptIsOk (saveBlob dbBackend "db" 1
      ⟨fun k => if k = "id1" then some [104, 101, 108, 108, 111] else none,
       fun k => if k = "id1" then some ⟨5, "db", 0⟩ else none⟩ "id1" "aGVsbG8=") = false := by
  exact ⟨rfl, rfl⟩

/-- C3 amended: a second store under an id that already has a metadata row
does replace the backend bytes and does leave the metadata row (hence its
`created_at`) unchanged, but it does not succeed: after the backend write,
`BlobMeta.create` raises an integrity error on the existing primary key. -/
theorem second_store_overwrites_bytes_then_integrity_error {σ : Type} (B : Backend σ)
    (bn : String) (now : Nat) (st : SvcState σ) (blobId s : String) (data : List Nat)
    (store' : σ) (row : MetaRow)
    (hm : st.meta blobId = some row)
    (hd : b64decode s.toList = .ok data)
    (hp : B.put st.store blobId data = .ok store') :
    saveBlob B bn now st blobId s =
      .error (.integrity "UNIQUE constraint failed: blobs_meta.id", ⟨store', st.meta⟩) := by
  have hd' : b64decode s.data = .ok data := hd
  simp [saveBlob, hd', hp, blobMetaCreate, hm]

/-- Witness for the amended C3: a concrete second store replaces the
`blobs_data` row, keeps the metadata row of the first store, and errors. -/
theorem second_store_overwrites_bytes_witness :
    saveBlob dbBackend "db" 9
      ⟨fun _ => none, fun k => if k = "id1" then some ⟨5, "db", 3⟩ else none⟩
      "id1" "aGVsbG8=" =
      .error (.integrity "UNIQUE constraint failed: blobs_meta.id",
        ⟨dbPut (fun _ => none) "id1" [104, 101, 108, 108, 111],
         fun k => if k = "id1" then some ⟨5, "db", 3⟩ else none⟩) :=
  second_store_overwrites_bytes_then_integrity_error dbBackend "db" 9
    ⟨fun _ => none, fun k => if k = "id1" then some ⟨5, "db", 3⟩ else none⟩
    "id1" "aGVsbG8=" [104, 101, 108, 108, 111]
    (dbPut (fun _ => none) "id1" [104, 101, 108, 108, 111]) ⟨5, "db", 3⟩ rfl rfl rfl

/-- C2, evaluated on the code: the bare base64 of `"iam image bytes"`
decodes to those very bytes, but storing the `data:image/png;base64,` URI
carrying the same payload raises the invalid-input `ValueError` instead of
storing the same bytes — `save_blob` passes the whole URI to
`base64.b64decode`, which discards `:`, `;`, `,` and then fails on the
remaining 39 data characters (`≡ 3 (mod 4)`, no pad reached in a
terminating position). -/
theorem data_uri_store_rejected :
    b64decode "aWFtIGltYWdlIGJ5dGVz".toList = .ok (strBytes "iam image bytes") ∧
    saveBlob dbBackend "db" 0 ⟨fun _ => none, fun _ => none⟩ "obj1"
      "data:image/png;base64,aWFtIGltYWdlIGJ5dGVz" =
      .error (.invalidInput "Invalid base64 data", ⟨fun _ => none, fun _ => none⟩) := by
  exact ⟨rfl, rfl⟩

/-- C8: whenever the payload fails to decode, `save_blob` raises the
distinct invalid-input error with the state untouched (no backend write, no
metadata write), and the view surfaces it as HTTP 400 — never as a backend
or storage error. -/
theorem invalid_base64_is_client_error {σ : Type} (B : Backend σ) (bn : String) (now : Nat)
    (st : SvcState σ) (blobId s : String)
    (hd : exceptIsOk (b64decode s.toList) = false) :
    saveBlob B bn now st blobId s = .error (.invalidInput "Invalid base64 data", st) ∧
    createBlobView B bn now st blobId s = (st, .httpError 400 "Invalid base64 data") := by
  cases hb : b64decode s.toList with
  | ok data => rw [hb] at hd; simp [exceptIsOk] at hd
  | error e =>
    have hb' : b64decode s.data = .error e := hb
    exact ⟨by simp [saveBlob, hb'], by simp [createBlobView, saveBlob, hb']⟩

/-- Witness for C8 at the spec's example `"not-base64"`. -/
theorem invalid_base64_is_client_error_witness :
    saveBlob dbBackend "db" 0 ⟨fun _ => none, fun _ => none⟩ "id1" "not-base64" =
      .error (.invalidInput "Invalid base64 data", ⟨fun _ => none, fun _ => none⟩) ∧
    createBlobView dbBackend "db" 0 ⟨fun _ => none, fun _ => none⟩ "id1" "not-base64" =
      (⟨fun _ => none, fun _ => none⟩, .httpError 400 "Invalid base64 data") :=
  invalid_base64_is_client_error dbBackend "db" 0 ⟨fun _ => none, fun _ => none⟩
    "id1" "not-base64" rfl

/-- C9: `retrieve` yields the not-found outcome — `get_blob` returns `None`
and the view answers HTTP 404 — both when no metadata row exists and when a
row exists but the configured backend has no bytes for the id. -/
theorem retrieve_not_found {σ : Type} (B : Backend σ) (st : SvcState σ) (blobId : String) :
    (st.meta blobId = none →
      getBlob B st blobId = .ok none ∧
      retrieveBlobView B st blobId = .httpError 404 "Blob not found") ∧
    (∀ row, st.meta blobId = some row → B.get st.store blobId = .ok none →
      getBlob B st blobId = .ok none ∧
      retrieveBlobView B st blobId = .httpError 404 "Blob not found") := by
  constructor
  · intro hm
    have h1 : getBlob B st blobId = .ok none := by simp [getBlob, hm]
    exact ⟨h1, by simp [retrieveBlobView, h1]⟩
  · intro row hm hg
    have h1 : getBlob B st blobId = .ok none := by simp [getBlob, hm, hg]
    exact ⟨h1, by simp [retrieveBlobView, h1]⟩

/-- Witness for C9: a never-stored id, and an id with a metadata row but no
bytes in the configured backend. -/
theorem retrieve_not_found_witness :
    (getBlob dbBackend ⟨fun _ => none, fun _ => none⟩ "nope" = .ok none ∧
     retrieveBlobView dbBackend ⟨fun _ => none, fun _ => none⟩ "nope" =
       .httpError 404 "Blob not found") ∧
    (getBlob dbBackend ⟨fun _ => none, fun k => if k = "gone" then some ⟨4, "db", 0⟩ else none⟩
       "gone" = .ok none ∧
     retrieveBlobView dbBackend
       ⟨fun _ => none, fun k => if k = "gone" then some ⟨4, "db", 0⟩ else none⟩ "gone" =
       .httpError 404 "Blob not found") :=
  ⟨(retrieve_not_found dbBackend ⟨fun _ => none, fun _ => none⟩ "nope").1 rfl,
   (retrieve_not_found dbBackend
     ⟨fun _ => none, fun k => if k = "gone" then some ⟨4, "db", 0⟩ else none⟩ "gone").2
     ⟨4, "db", 0⟩ rfl rfl⟩

/-- C10: the decoder underlying `save_blob` discards characters outside the
base64 alphabet rather than rejecting them: whenever the input with its
non-alphabet characters removed decodes to `data`, the store succeeds and
persists exactly `data` (no invalid-input error is raised). -/
theorem store_discards_non_alphabet_chars (st : SvcState KVMap) (blobId s : String)
    (now : Nat) (data : List Nat)
    (hascii : s.toList.all (fun c => c.toNat < 128))
    (hm : st.meta blobId = none)
    (hd : a2bLoop (s.toList.filter keptChar) 0 0 0 [] = .ok data) :
    saveBlob dbBackend "db" now st blobId s =
      .ok ⟨dbPut st.store blobId data,
           fun k => if k = blobId then some ⟨data.length, "db", now⟩ else st.meta k⟩ := by
  have hdec : b64decode s.toList = .ok data := by
    rw [b64decode, if_pos hascii, a2b_filter]
    exact hd
  have hdec' : b64decode s.data = .ok data := hdec
  simp [saveBlob, hdec', dbBackend, blobMetaCreate, hm]

/-- Witness for C10: `"aGVs?bG8="` is not base64 (it contains `?`), yet the
store succeeds and persists the bytes of `"hello"`, obtained by decoding
with the `?` removed. -/
theorem store_discards_non_alphabet_chars_witness :
    saveBlob dbBackend "db" 2 ⟨fun _ => none, fun _ => none⟩ "id9" "aGVs?bG8=" =
      .ok ⟨dbPut (fun _ => none) "id9" [104, 101, 108, 108, 111],
           fun k => if k = "id9" then some ⟨5, "db", 2⟩ else none⟩ :=
  store_discards_non_alphabet_chars ⟨fun _ => none, fun _ => none⟩ "id9" "aGVs?bG8=" 2
    [104, 101, 108, 108, 111] (by decide) rfl rfl

/-- C5: region auto-detection yields `eu-west-1` for the AWS endpoint
`https://s3.eu-west-1.amazonaws.com`, and the default `us-east-1` for any
endpoint matched by none of the known provider hostname patterns. -/
theorem extract_region_cases :
    extractRegion "https://s3.eu-west-1.amazonaws.com" = "eu-west-1" ∧
    ∀ e : String, (∀ p ∈ regionPatterns, reSearch p e.toList = none) →
      extractRegion e = "us-east-1" := by
  constructor
  · decide
  · intro e he
    have h5 : regionPatterns.findSome? (fun p => reSearch p e.data) = none := by
      rw [List.findSome?_eq_none_iff]
      exact fun p hp => he p hp
    simp [extractRegion, h5]

/-- Witness for C5: `http://localhost:9000` matches no provider pattern and
falls back to the default region. -/
theorem extract_region_cases_witness :
    extractRegion "http://localhost:9000" = "us-east-1" :=
  extract_region_cases.2 "http://localhost:9000" (by decide)

/-- C6: in path-style addressing the request URL is `endpoint/bucket/id`,
the canonical signing path is `/bucket/id`, and the URL is exactly the
endpoint followed by the canonical path, so the two always agree. -/
theorem path_style_url_and_canonical_path (cfg : S3Config) (blobId : String)
    (hvh : cfg.virtualHost = false) :
    makeUrlAndPath cfg blobId =
      (cfg.endpoint ++ "/" ++ cfg.bucket ++ "/" ++ blobId,
       "/" ++ cfg.bucket ++ "/" ++ blobId) ∧
    (makeUrlAndPath cfg blobId).1 = cfg.endpoint ++ (makeUrlAndPath cfg blobId).2 := by
  have h1 : makeUrlAndPath cfg blobId =
      (cfg.endpoint ++ "/" ++ cfg.bucket ++ "/" ++ blobId,
       "/" ++ cfg.bucket ++ "/" ++ blobId) := by
    simp [makeUrlAndPath, hvh]
  exact ⟨h1, by rw [h1]; simp [String.append_assoc]⟩

/-- Witness for C6: bucket `b`, id `obj1`, endpoint `https://example.com`
give URL `https://example.com/b/obj1` and canonical path `/b/obj1`. -/
theorem path_style_url_and_canonical_path_witness :
    makeUrlAndPath (mkS3 "https://example.com" "b" "ak" "sk" none false) "obj1" =
      ("https://example.com/b/obj1", "/b/obj1") :=
  ((path_style_url_and_canonical_path
      (mkS3 "https://example.com" "b" "ak" "sk" none false) "obj1" rfl).1).trans (by decide)

/-- C7: the Object Store Backend's GET response handling returns the body
on HTTP 200, the not-found result (not an error) on HTTP 404, and for any
other status raises a backend failure whose message carries that status. -/
theorem s3_get_status_handling (status : Nat) (content : List Nat) (text : String) :
    s3GetRespond 200 content text = .ok (some content) ∧
    s3GetRespond 404 content text = .ok none ∧
    (status ≠ 200 → status ≠ 404 →
      s3GetRespond status content text =
        .error ("S3 GET failed: " ++ toString status ++ " " ++ text)) := by
  refine ⟨by simp [s3GetRespond], by simp [s3GetRespond], fun h1 h2 => ?_⟩
  simp [s3GetRespond, h1, h2]

/-- Witness for C7 at status 500. -/
theorem s3_get_status_handling_witness :
    s3GetRespond 200 [1, 2] "boom" = .ok (some [1, 2]) ∧
    s3GetRespond 404 [1, 2] "boom" = .ok none ∧
    s3GetRespond 500 [1, 2] "boom" = .error ("S3 GET failed: " ++ toString 500 ++ " " ++ "boom") :=
  ⟨(s3_get_status_handling 500 [1, 2] "boom").1,
   (s3_get_status_handling 500 [1, 2] "boom").2.1,
   (s3_get_status_handling 500 [1, 2] "boom").2.2 (by decide) (by decide)⟩

/-- C4: with credentials configured, `_auth_headers` emits exactly the
`x-amz-date` and payload-hash headers plus an `Authorization` header whose
`Signature` is the spec's formula: hex HMAC of the spec string-to-sign
(`AWS4-HMAC-SHA256`, amzDate, `dateStamp/region/s3/aws4_request`, hex
SHA-256 of the canonical request) under the spec's chained signing key. -/
theorem sigv4_signature_matches_spec (cfg : S3Config) (method path : String)
    (payload : List Nat) (amzDate dateStamp : String)
    (h1 : cfg.accessKey ≠ "") (h2 : cfg.secretKey ≠ "") :
    authHeaders cfg method path payload amzDate dateStamp =
      [("Authorization",
        "AWS4-HMAC-SHA256 Credential=" ++ cfg.accessKey ++ "/" ++ dateStamp ++ "/"
          ++ cfg.region ++ "/s3/aws4_request, SignedHeaders=" ++ signedHeadersList
          ++ ", Signature="
          ++ specSignature cfg.secretKey cfg.region amzDate dateStamp
               (canonicalRequestOf cfg method path payload amzDate)),
       ("x-amz-date", amzDate),
       ("x-amz-content-sha256", hexdigest (sha256 payload))] := by
  rw [authHeaders, if_neg (by simp [h1, h2])]
  rfl

/-- Witness for C4 at a concrete configuration and request. -/
theorem sigv4_signature_matches_spec_witness :
    authHeaders (mkS3 "https://example.com" "b" "AK" "SK" (some "us-east-1") false)
      "GET" "/b/obj1" [] "20260101T000000Z" "20260101" =
      [("Authorization",
        "AWS4-HMAC-SHA256 Credential="
          ++ (mkS3 "https://example.com" "b" "AK" "SK" (some "us-east-1") false).accessKey
          ++ "/" ++ "20260101" ++ "/"
          ++ (mkS3 "https://example.com" "b" "AK" "SK" (some "us-east-1") false).region
          ++ "/s3/aws4_request, SignedHeaders=" ++ signedHeadersList
          ++ ", Signature="
          ++ specSignature (mkS3 "https://example.com" "b" "AK" "SK" (some "us-east-1") false).secretKey
               (mkS3 "https://example.com" "b" "AK" "SK" (some "us-east-1") false).region
               "20260101T000000Z" "20260101"
               (canonicalRequestOf (mkS3 "https://example.com" "b" "AK" "SK" (some "us-east-1") false)
                 "GET" "/b/obj1" [] "20260101T000000Z")),
       ("x-amz-date", "20260101T000000Z"),
       ("x-amz-content-sha256", hexdigest (sha256 []))] :=
  sigv4_signature_matches_spec (mkS3 "https://example.com" "b" "AK" "SK" (some "us-east-1") false)
    "GET" "/b/obj1" [] "20260101T000000Z" "20260101" (by decide) (by decide)
